import Mathlib

/-!
Verification development for the RTU schedule client (TypeScript sources
src/api-client.ts and src/schedule/discovery.ts), shallowly embedded in Lean.

Modelling conventions:
* Timestamps and the cache timeout are `Int` (milliseconds), matching the
  exact JS arithmetic `Date.now() - entry.timestamp < cacheTimeout`.
* The `Map<string, ...>` caches are modelled as association lists with
  `alookup` / `aset` / `aerase`; insertion order is irrelevant to lookups.
* Network transport is a parameter: each operation receives the outcome the
  upstream would produce for the single request it may issue, and returns,
  besides its result and the updated cache, the number of upstream requests
  it actually issued.
* JS `Date` values built by `new Date(year, monthIndex, day)` are modelled
  by `HDate` with the same 0-based month index; comparison is lexicographic,
  which agrees with JS Date comparison for in-range fields.
-/

/-- Association-list lookup (models `Map.get`). -/
def alookup {κ α : Type} [DecidableEq κ] : List (κ × α) → κ → Option α
  | [], _ => none
  | (k, v) :: rest, key => if k = key then some v else alookup rest key

/-- Association-list removal (models `Map.delete`). -/
def aerase {κ α : Type} [DecidableEq κ] (c : List (κ × α)) (k : κ) : List (κ × α) :=
  c.filter (fun p => p.1 ≠ k)

/-- Association-list insertion (models `Map.set`, last write wins). -/
def aset {κ α : Type} [DecidableEq κ] (c : List (κ × α)) (k : κ) (v : α) : List (κ × α) :=
  (k, v) :: aerase c k

/-- Data stored in the live-data cache: the arrays returned by the four
list-returning endpoints (items kept opaque as `Nat`), or the boolean of the
publication check. -/
inductive CacheData : Type where
  | arr (xs : List Nat)
  | bool (b : Bool)
deriving DecidableEq, Repr

/-- JS truthiness of a cached value: arrays are objects, hence truthy;
booleans are truthy iff `true`. Used by the `if (cached) return cached`
guards of the array-returning operations. -/
def CacheData.truthy : CacheData → Bool
  | .arr _ => true
  | .bool b => b

/-- A JSON response body as the operations discriminate it: null/undefined,
an array, or some other non-null value carrying its `Boolean(...)` coercion. -/
inductive JsonBody : Type where
  | jnull
  | jarr (xs : List Nat)
  | jother (truthy : Bool)
deriving DecidableEq, Repr

/-- `Boolean(body)` for a body already known non-null. -/
def JsonBody.toBool : JsonBody → Bool
  | .jnull => false
  | .jarr _ => true
  | .jother t => t

/-- `CacheEntry<T>` / the inline `{ data: unknown; timestamp: number }` pair. -/
structure CacheEntry (α : Type) where
  data : α
  timestamp : Int
deriving DecidableEq, Repr

/-- The private `cache` map of `RTUApiClient`. -/
abbrev Cache := List (String × CacheEntry CacheData)

/-- `RTUApiClient.getFromCache`: returns the entry only when
`now - timestamp < cacheTimeout`, and deletes a present-but-stale entry as a
side effect. Returns the (possibly updated) cache alongside the result. -/
def getFromCache (cacheTimeout now : Int) (cache : Cache) (key : String) :
    Option CacheData × Cache :=
  match alookup cache key with
  | some e =>
      if now - e.timestamp < cacheTimeout then (some e.data, cache)
      else (none, aerase cache key)
  | none => (none, cache)

/-- `RTUApiClient.setCache`: overwrite the key with a fresh timestamp. -/
def setCache (now : Int) (cache : Cache) (key : String) (d : CacheData) : Cache :=
  aset cache key ⟨d, now⟩

/-- Errors raised by `RTUApiClient`. All are JS `Error`s; the constructors
track the distinct messages the source uses: parameter validation errors
(`Invalid semesterProgramId` and the like), the `Invalid response data` error
for a null body, and axios failures wrapped as `API request failed: ...`. -/
inductive ApiError : Type where
  | validation (msg : String)
  | invalidResponse
  | transport (msg : String)
deriving DecidableEq, Repr

/-- Outcome of one upstream POST: an axios-level failure with its message, or
a response whose `data` field is the given body. -/
abbrev Transport := Except String JsonBody

/-- Result triple of a client operation: outcome, final cache, and the number
of upstream requests issued (0 or 1). -/
abbrev ApiResult := Except ApiError CacheData × Cache × Nat

/-- `validateSemesterProgramEventsParams`: the checks, in source order, with
JS falsiness `!x` rendered as `x = 0`. -/
def validateSemesterProgramEventsParams (semesterProgramId year month : Int) :
    Option ApiError :=
  if semesterProgramId = 0 ∨ semesterProgramId ≤ 0 then
    some (.validation "Invalid semesterProgramId")
  else if year = 0 ∨ year < 2000 ∨ year > 3000 then
    some (.validation "Invalid year")
  else if month = 0 ∨ month < 1 ∨ month > 12 then
    some (.validation "Invalid month")
  else none

/-- `validateGroupsByCourseParams`. -/
def validateGroupsByCourseParams (courseId semesterId programId : Int) :
    Option ApiError :=
  if courseId = 0 ∨ courseId ≤ 0 then some (.validation "Invalid courseId")
  else if semesterId = 0 ∨ semesterId ≤ 0 then some (.validation "Invalid semesterId")
  else if programId = 0 ∨ programId ≤ 0 then some (.validation "Invalid programId")
  else none

/-- `validateCoursesByProgramParams`. -/
def validateCoursesByProgramParams (semesterId programId : Int) : Option ApiError :=
  if semesterId = 0 ∨ semesterId ≤ 0 then some (.validation "Invalid semesterId")
  else if programId = 0 ∨ programId ≤ 0 then some (.validation "Invalid programId")
  else none

/-- Cache key of `fetchSemesterProgramEvents`. -/
def eventsCacheKey (semesterProgramId year month : Int) : String :=
  "events_" ++ toString semesterProgramId ++ "_" ++ toString year ++ "_" ++ toString month

/-- Cache key of `fetchSemesterProgramSubjects`. -/
def subjectsCacheKey (semesterProgramId : Int) : String :=
  "subjects_" ++ toString semesterProgramId

/-- Cache key of `checkSemesterProgramPublished`. -/
def publishedCacheKey (semesterProgramId : Int) : String :=
  "published_" ++ toString semesterProgramId

/-- Cache key of `findGroupsByCourse`. -/
def groupsCacheKey (courseId semesterId programId : Int) : String :=
  "groups_" ++ toString courseId ++ "_" ++ toString semesterId ++ "_" ++ toString programId

/-- Cache key of `findCoursesByProgram`. -/
def coursesCacheKey (semesterId programId : Int) : String :=
  "courses_" ++ toString semesterId ++ "_" ++ toString programId

/-- The `try { post ... } catch` block shared by the four array-returning
operations: upstream call, null-body check, array coercion and cache write. -/
def arrayUpstream (now : Int) (transport : Transport)
    (key : String) (cache : Cache) : ApiResult :=
  match transport with
  | .error m => (.error (.transport ("API request failed: " ++ m)), cache, 1)
  | .ok body =>
      match body with
      | .jnull => (.error .invalidResponse, cache, 1)
      | .jarr xs => (.ok (.arr xs), setCache now cache key (.arr xs), 1)
      | .jother _ => (.ok (.arr []), setCache now cache key (.arr []), 1)

/-- Shared tail of the four array-returning operations: cache lookup guarded
by JS truthiness (`if (cached) return cached`), then the upstream call. Each
operation instantiates it with its own key. -/
def arrayOpCore (cacheTimeout now : Int) (transport : Transport)
    (key : String) (cache : Cache) : ApiResult :=
  let looked := getFromCache cacheTimeout now cache key
  match looked.1 with
  | some d =>
      if d.truthy then (.ok d, looked.2, 0)
      else arrayUpstream now transport key looked.2
  | none => arrayUpstream now transport key looked.2

/-- `RTUApiClient.fetchSemesterProgramEvents`. -/
def fetchSemesterProgramEvents (cacheTimeout now : Int) (transport : Transport)
    (semesterProgramId year month : Int) (cache : Cache) : ApiResult :=
  match validateSemesterProgramEventsParams semesterProgramId year month with
  | some e => (.error e, cache, 0)
  | none =>
      arrayOpCore cacheTimeout now transport
        (eventsCacheKey semesterProgramId year month) cache

/-- `RTUApiClient.fetchSemesterProgramSubjects` (inline validation). -/
def fetchSemesterProgramSubjects (cacheTimeout now : Int) (transport : Transport)
    (semesterProgramId : Int) (cache : Cache) : ApiResult :=
  if semesterProgramId = 0 ∨ semesterProgramId ≤ 0 then
    (.error (.validation "Invalid semesterProgramId"), cache, 0)
  else
    arrayOpCore cacheTimeout now transport (subjectsCacheKey semesterProgramId) cache

/-- `RTUApiClient.checkSemesterProgramPublished`: note the cache-hit test is
`cached !== undefined` (so a cached `false` is a hit), and a null body is
coerced to `false`, not rejected. -/
def checkSemesterProgramPublished (cacheTimeout now : Int) (transport : Transport)
    (semesterProgramId : Int) (cache : Cache) : ApiResult :=
  if semesterProgramId = 0 ∨ semesterProgramId ≤ 0 then
    (.error (.validation "Invalid semesterProgramId"), cache, 0)
  else
    let key := publishedCacheKey semesterProgramId
    let looked := getFromCache cacheTimeout now cache key
    match looked.1 with
    | some d => (.ok d, looked.2, 0)
    | none =>
        match transport with
        | .error m => (.error (.transport ("API request failed: " ++ m)), looked.2, 1)
        | .ok body =>
            let published := if body ≠ .jnull then body.toBool else false
            (.ok (.bool published), setCache now looked.2 key (.bool published), 1)

/-- `RTUApiClient.findGroupsByCourse`. -/
def findGroupsByCourse (cacheTimeout now : Int) (transport : Transport)
    (courseId semesterId programId : Int) (cache : Cache) : ApiResult :=
  match validateGroupsByCourseParams courseId semesterId programId with
  | some e => (.error e, cache, 0)
  | none =>
      arrayOpCore cacheTimeout now transport
        (groupsCacheKey courseId semesterId programId) cache

/-- `RTUApiClient.findCoursesByProgram`. -/
def findCoursesByProgram (cacheTimeout now : Int) (transport : Transport)
    (semesterId programId : Int) (cache : Cache) : ApiResult :=
  match validateCoursesByProgramParams semesterId programId with
  | some e => (.error e, cache, 0)
  | none =>
      arrayOpCore cacheTimeout now transport (coursesCacheKey semesterId programId) cache

/-! ## Discovery service (src/schedule/discovery.ts) -/

/-- A calendar date as built by the JS `new Date(year, monthIndex, day)`
constructor: `month` is the 0-based month index (8 = September). -/
structure HDate where
  year : Int
  month : Nat
  day : Nat
deriving DecidableEq, Repr

/-- Date order, lexicographic on (year, month index, day); agrees with JS
`Date` comparison for fields in their normal ranges. -/
def HDate.le (a b : HDate) : Prop :=
  a.year < b.year ∨
    (a.year = b.year ∧ (a.month < b.month ∨ (a.month = b.month ∧ a.day ≤ b.day)))

instance (a b : HDate) : Decidable (HDate.le a b) := by
  unfold HDate.le; infer_instance

/-- Raw semester record `{id, name, isSelected}` from the HTML parser. -/
structure Semester where
  id : Int
  name : String
  isSelected : Bool
deriving DecidableEq, Repr

/-- Semester metadata `{startDate?, endDate?}` for the selected semester; the
string-to-Date parsing of the metadata is external, so the fields are already
dates here. -/
structure SemesterMetadata where
  startDate : Option HDate
  endDate : Option HDate
deriving DecidableEq, Repr

/-- Modelled from the spec: the outputs of the label-parsing helpers
`parsePeriodCode`, `parseAcademicYear` and `parseSeason` of `utils.js`, a
file not present under src/. The helpers are pure and total on labels, so a
function `String → ParsedLabel` stands for the three of them. -/
structure ParsedLabel where
  code : String
  academicYear : String
  season : String
deriving DecidableEq, Repr

/-- Value of one decimal digit character. -/
def digitVal (c : Char) : Nat := c.toNat - '0'.toNat

/-- Value of a four-digit run, as `parseInt(_, 10)` computes it. -/
def fourDigits (a b c d : Char) : Nat :=
  ((digitVal a * 10 + digitVal b) * 10 + digitVal c) * 10 + digitVal d

/-- The regex match `academicYear.match(/^(\d{4})\/(\d{4})$/)` together with
the two `parseInt` calls: both captured years, or `none` when the string does
not have the exact `YYYY/YYYY` shape. -/
def matchYearRange (s : String) : Option (Nat × Nat) :=
  match s.toList with
  | [a, b, c, d, sl, e, f, g, h] =>
      if a.isDigit ∧ b.isDigit ∧ c.isDigit ∧ d.isDigit ∧ sl = '/' ∧
          e.isDigit ∧ f.isDigit ∧ g.isDigit ∧ h.isDigit then
        some (fourDigits a b c d, fourDigits e f g h)
      else none
  | _ => none

/-- A discovered study period. -/
structure StudyPeriod where
  id : Int
  name : String
  code : String
  academicYear : String
  season : String
  startDate : HDate
  endDate : HDate
  isSelected : Bool
deriving DecidableEq, Repr

/-- The default date-range computation of `transformToStudyPeriod` (the else
branch): years from the `YYYY/YYYY` regex with current-year fallback, then
the season switch. Month fields are 0-based JS month indices, so 8 = Sep,
0 = Jan, 1 = Feb, 5 = Jun, 6 = Jul, 7 = Aug. -/
def defaultDates (academicYear season : String) (nowDate : HDate) : HDate × HDate :=
  let yearMatch := matchYearRange academicYear
  let startYear : Int :=
    match yearMatch with
    | some p => (p.1 : Int)
    | none => nowDate.year
  let endYear : Int :=
    match yearMatch with
    | some p => (p.2 : Int)
    | none => startYear + 1
  match season with
  | "autumn" => (⟨startYear, 8, 1⟩, ⟨endYear, 0, 31⟩)
  | "spring" => (⟨endYear, 1, 1⟩, ⟨endYear, 5, 30⟩)
  | "summer" => (⟨endYear, 6, 1⟩, ⟨endYear, 7, 31⟩)
  | _ => (nowDate, nowDate)

/-- `DiscoveryService.transformToStudyPeriod`. `lp` supplies the outputs of
the external label parsers for a label; `nowDate` is the date `new Date()`
would produce (so `nowDate.year` is `new Date().getFullYear()`). -/
def transformToStudyPeriod (lp : String → ParsedLabel) (nowDate : HDate)
    (semester : Semester) (metadata : SemesterMetadata) : StudyPeriod :=
  let code := (lp semester.name).code
  let academicYear := (lp semester.name).academicYear
  let season := (lp semester.name).season
  let dates : HDate × HDate :=
    match semester.isSelected, metadata.startDate, metadata.endDate with
    | true, some s, some e => (s, e)
    | _, _, _ => defaultDates academicYear season nowDate
  { id := semester.id
    name := semester.name
    code := code
    academicYear := academicYear
    season := season
    startDate := dates.1
    endDate := dates.2
    isSelected := semester.isSelected }

/-- Raw program record nested inside a faculty. -/
structure RawProgram where
  id : Int
  name : String
  code : String
  tokens : List String
deriving DecidableEq, Repr

/-- Raw faculty record from the HTML parser. -/
structure Faculty where
  facultyName : String
  facultyCode : String
  programs : List RawProgram
deriving DecidableEq, Repr

/-- The `{ name, code }` faculty pair kept on each program. -/
structure FacultyInfo where
  name : String
  code : String
deriving DecidableEq, Repr

/-- A discovered study program. -/
structure StudyProgram where
  id : Int
  name : String
  code : String
  fullName : String
  faculty : FacultyInfo
  tokens : List String
deriving DecidableEq, Repr

/-- `DiscoveryService.transformFacultiesToPrograms`; `ppn` stands for the
external `parseProgramName` helper of `utils.js` (absent from src). -/
def transformFacultiesToPrograms (ppn : String → String)
    (faculties : List Faculty) : List StudyProgram :=
  (faculties.map (fun f =>
    f.programs.map (fun p =>
      { id := p.id
        name := ppn p.name
        code := p.code
        fullName := p.name
        faculty := { name := f.facultyName, code := f.facultyCode }
        tokens := p.tokens }))).flatten

/-- The mutable caches of `DiscoveryService`: the single periods slot and the
per-period programs map. -/
structure DiscoveryState where
  periodsCache : Option (CacheEntry (List StudyPeriod))
  programsCache : List (Int × CacheEntry (List StudyProgram))
deriving DecidableEq, Repr

/-- Errors of the discovery flow: a `DiscoveryError` message plus the wrapped
cause, when one was an `Error`. -/
structure DiscError where
  msg : String
  cause : Option String
deriving DecidableEq, Repr

/-- `DiscoveryService.getCachedPeriods`: note staleness is
`now - timestamp > cacheTimeout` (strict), so an entry aged exactly
`cacheTimeout` still counts as fresh. Evicts a stale entry. -/
def getCachedPeriods (cacheTimeout now : Int) (st : DiscoveryState) :
    Option (List StudyPeriod) × DiscoveryState :=
  match st.periodsCache with
  | none => (none, st)
  | some e =>
      if now - e.timestamp > cacheTimeout then
        (none, { st with periodsCache := none })
      else (some e.data, st)

/-- `DiscoveryService.getCachedPrograms`, same staleness rule, keyed by
period id. -/
def getCachedPrograms (cacheTimeout now : Int) (st : DiscoveryState)
    (periodId : Int) : Option (List StudyProgram) × DiscoveryState :=
  match alookup st.programsCache periodId with
  | none => (none, st)
  | some e =>
      if now - e.timestamp > cacheTimeout then
        (none, { st with programsCache := aerase st.programsCache periodId })
      else (some e.data, st)

/-- Outcome of `fetchMainPage` plus the HTML parse for the periods view: the
semester list and the selected-semester metadata, or a failure message. -/
abbrev PeriodsFetch := Except String (List Semester × SemesterMetadata)

/-- `DiscoveryService.discoverPeriods`: serve fresh cache, else transform the
fetched semesters and cache the full list; any fetch or parse failure is
wrapped in a `DiscoveryError` and nothing is written. -/
def discoverPeriods (lp : String → ParsedLabel) (cacheTimeout now : Int)
    (nowDate : HDate) (fetched : PeriodsFetch) (st : DiscoveryState) :
    Except DiscError (List StudyPeriod) × DiscoveryState :=
  let looked := getCachedPeriods cacheTimeout now st
  match looked.1 with
  | some cached => (.ok cached, looked.2)
  | none =>
      match fetched with
      | .error m => (.error ⟨"Failed to fetch periods", some m⟩, looked.2)
      | .ok (semesters, metadata) =>
          let periods :=
            semesters.map (fun s => transformToStudyPeriod lp nowDate s metadata)
          (.ok periods,
            { looked.2 with periodsCache := some ⟨periods, now⟩ })

/-- `DiscoveryService.discoverPrograms`: per-period analogue. -/
def discoverPrograms (ppn : String → String) (cacheTimeout now : Int)
    (periodId : Int) (fetched : Except String (List Faculty))
    (st : DiscoveryState) : Except DiscError (List StudyProgram) × DiscoveryState :=
  let looked := getCachedPrograms cacheTimeout now st periodId
  match looked.1 with
  | some cached => (.ok cached, looked.2)
  | none =>
      match fetched with
      | .error m => (.error ⟨"Failed to fetch programs", some m⟩, looked.2)
      | .ok faculties =>
          let programs := transformFacultiesToPrograms ppn faculties
          (.ok programs,
            { looked.2 with
                programsCache := aset looked.2.programsCache periodId ⟨programs, now⟩ })

/-! ## Association-list and cache-lookup lemmas -/

theorem alookup_aerase_self {κ α : Type} [DecidableEq κ] (c : List (κ × α)) (k : κ) :
    alookup (aerase c k) k = none := by
  induction c with
  | nil => rfl
  | cons p rest ih =>
      rcases p with ⟨k1, v1⟩
      by_cases h : k1 = k
      · simpa [aerase, List.filter_cons, h] using ih
      · simpa [aerase, List.filter_cons, h, alookup] using ih

theorem alookup_aerase_ne {κ α : Type} [DecidableEq κ] (c : List (κ × α))
    (k k' : κ) (h : k' ≠ k) : alookup (aerase c k) k' = alookup c k' := by
  have hkk : ¬ k = k' := fun hk => h hk.symm
  induction c with
  | nil => rfl
  | cons p rest ih =>
      rcases p with ⟨k1, v1⟩
      by_cases h1 : k1 = k
      · subst h1
        simpa [aerase, List.filter_cons, alookup, hkk] using ih
      · by_cases h2 : k1 = k'
        · simp [aerase, List.filter_cons, h1, h2, h, alookup]
        · simpa [aerase, List.filter_cons, h1, h2, h, alookup] using ih

theorem alookup_aset_self {κ α : Type} [DecidableEq κ] (c : List (κ × α))
    (k : κ) (v : α) : alookup (aset c k v) k = some v := by
  simp [aset, alookup]

theorem alookup_aset_ne {κ α : Type} [DecidableEq κ] (c : List (κ × α))
    (k k' : κ) (v : α) (h : k' ≠ k) : alookup (aset c k v) k' = alookup c k' := by
  have : ¬ k = k' := fun hk => h hk.symm
  simp [aset, alookup, this, alookup_aerase_ne c k k' h]

theorem getFromCache_lookup_frame (t n : Int) (c : Cache) (k k' : String)
    (h : k' ≠ k) : alookup (getFromCache t n c k).2 k' = alookup c k' := by
  unfold getFromCache
  cases halo : alookup c k with
  | none => rfl
  | some e =>
      by_cases hf : n - e.timestamp < t
      · simp [hf]
      · simp [hf, alookup_aerase_ne c k k' h]

theorem getFromCache_hit (t n ts : Int) (c : Cache) (k : String) (d : CacheData)
    (h : alookup c k = some ⟨d, ts⟩) (hf : n - ts < t) :
    getFromCache t n c k = (some d, c) := by
  unfold getFromCache
  rw [h]
  simp [hf]

theorem getFromCache_absent (t n : Int) (c : Cache) (k : String)
    (h : alookup c k = none) : getFromCache t n c k = (none, c) := by
  unfold getFromCache
  rw [h]

theorem getFromCache_stale (t n ts : Int) (c : Cache) (k : String) (d : CacheData)
    (h : alookup c k = some ⟨d, ts⟩) (hf : ¬ n - ts < t) :
    getFromCache t n c k = (none, aerase c k) := by
  unfold getFromCache
  rw [h]
  simp [hf]

/-! ## C1 -/

/-- C1 counterexample: the claim requires every cache read to return absent
once the elapsed time reaches the TTL, but the Discovery Service periods
cache, with TTL 5 and an entry written at time 0, still returns the stored
value at time 5 (elapsed = TTL), because its staleness test is strict
(`now - timestamp > cacheTimeout`). -/
theorem C1_cache_expiry_counterexample :
    (5 : Int) - 0 ≥ 5 ∧
      (getCachedPeriods 5 5 ⟨some ⟨[], 0⟩, []⟩).1 = some [] := by
  constructor
  · decide
  · rfl

/-- C1 (amended): the Live Data Client cache returns a stored entry iff the
elapsed time is strictly below the TTL and evicts it once elapsed ≥ TTL; the
two Discovery Service caches instead return the entry iff elapsed ≤ TTL and
evict it only once elapsed > TTL (at elapsed = TTL they still serve it). -/
theorem C1_cache_expiry (t n ts : Int) (k : String) (d : CacheData) (c : Cache)
    (e : CacheEntry (List StudyPeriod)) (e2 : CacheEntry (List StudyProgram))
    (st st2 : DiscoveryState) (pid : Int)
    (hc : alookup c k = some ⟨d, ts⟩)
    (hp : st.periodsCache = some e)
    (hg : alookup st2.programsCache pid = some e2) :
    (((getFromCache t n c k).1 = some d ↔ n - ts < t) ∧
      (t ≤ n - ts → alookup (getFromCache t n c k).2 k = none)) ∧
    (((getCachedPeriods t n st).1 = some e.data ↔ n - e.timestamp ≤ t) ∧
      (t < n - e.timestamp → (getCachedPeriods t n st).2.periodsCache = none)) ∧
    (((getCachedPrograms t n st2 pid).1 = some e2.data ↔ n - e2.timestamp ≤ t) ∧
      (t < n - e2.timestamp →
        alookup (getCachedPrograms t n st2 pid).2.programsCache pid = none)) := by
  refine ⟨⟨?_, ?_⟩, ⟨?_, ?_⟩, ⟨?_, ?_⟩⟩
  · by_cases hf : n - ts < t
    · rw [getFromCache_hit t n ts c k d hc hf]
      simpa using hf
    · rw [getFromCache_stale t n ts c k d hc hf]
      simpa using hf
  · intro hge
    have hf : ¬ n - ts < t := by omega
    rw [getFromCache_stale t n ts c k d hc hf]
    exact alookup_aerase_self c k
  · unfold getCachedPeriods
    rw [hp]
    by_cases hs : n - e.timestamp > t
    · simp only [if_pos hs]
      constructor
      · intro habs
        exact absurd habs (by simp)
      · intro hle
        omega
    · simp only [if_neg hs]
      constructor
      · intro _
        omega
      · intro _
        trivial
  · intro hlt
    unfold getCachedPeriods
    rw [hp]
    simp only [if_pos (by omega : n - e.timestamp > t)]
  · unfold getCachedPrograms
    rw [hg]
    by_cases hs : n - e2.timestamp > t
    · simp only [if_pos hs]
      constructor
      · intro habs
        exact absurd habs (by simp)
      · intro hle
        omega
    · simp only [if_neg hs]
      constructor
      · intro _
        omega
      · intro _
        trivial
  · intro hlt
    unfold getCachedPrograms
    rw [hg]
    simp only [if_pos (by omega : n - e2.timestamp > t)]
    exact alookup_aerase_self st2.programsCache pid

/-- C1 witness: concrete instance of the amended theorem, TTL 10, entry
written at 0 and read at 3. -/
theorem C1_cache_expiry_witness :
    (getFromCache 10 3 [("k", ⟨.bool true, 0⟩)] "k").1 = some (.bool true) :=
  ((C1_cache_expiry 10 3 0 "k" (.bool true) [("k", ⟨.bool true, 0⟩)]
      ⟨[], 0⟩ ⟨[], 0⟩ ⟨some ⟨[], 0⟩, []⟩ ⟨none, [(7, ⟨[], 0⟩)]⟩ 7
      (by rfl) (by rfl) (by rfl)).1.1).mpr (by decide)

/-! ## Operation-unfolding helper lemmas -/

theorem validateEvents_ok (i y m : Int) (hi : 0 < i) (hy1 : 2000 ≤ y)
    (hy2 : y ≤ 3000) (hm1 : 1 ≤ m) (hm2 : m ≤ 12) :
    validateSemesterProgramEventsParams i y m = none := by
  unfold validateSemesterProgramEventsParams
  rw [if_neg (by omega), if_neg (by omega), if_neg (by omega)]

theorem validateGroups_ok (ci si pi : Int) (hc : 0 < ci) (hs : 0 < si)
    (hp : 0 < pi) : validateGroupsByCourseParams ci si pi = none := by
  unfold validateGroupsByCourseParams
  rw [if_neg (by omega), if_neg (by omega), if_neg (by omega)]

theorem validateCourses_ok (si pi : Int) (hs : 0 < si) (hp : 0 < pi) :
    validateCoursesByProgramParams si pi = none := by
  unfold validateCoursesByProgramParams
  rw [if_neg (by omega), if_neg (by omega)]

theorem fetchEvents_eq_core (t n : Int) (tr : Transport) (i y m : Int)
    (c : Cache) (hv : validateSemesterProgramEventsParams i y m = none) :
    fetchSemesterProgramEvents t n tr i y m c =
      arrayOpCore t n tr (eventsCacheKey i y m) c := by
  unfold fetchSemesterProgramEvents
  rw [hv]

theorem fetchSubjects_eq_core (t n : Int) (tr : Transport) (i : Int)
    (c : Cache) (hi : 0 < i) :
    fetchSemesterProgramSubjects t n tr i c =
      arrayOpCore t n tr (subjectsCacheKey i) c := by
  unfold fetchSemesterProgramSubjects
  rw [if_neg (by omega)]

theorem findGroups_eq_core (t n : Int) (tr : Transport) (ci si pi : Int)
    (c : Cache) (hv : validateGroupsByCourseParams ci si pi = none) :
    findGroupsByCourse t n tr ci si pi c =
      arrayOpCore t n tr (groupsCacheKey ci si pi) c := by
  unfold findGroupsByCourse
  rw [hv]

theorem findCourses_eq_core (t n : Int) (tr : Transport) (si pi : Int)
    (c : Cache) (hv : validateCoursesByProgramParams si pi = none) :
    findCoursesByProgram t n tr si pi c =
      arrayOpCore t n tr (coursesCacheKey si pi) c := by
  unfold findCoursesByProgram
  rw [hv]

theorem arrayOpCore_nullBody (t n : Int) (k : String) (c : Cache)
    (hmiss : (getFromCache t n c k).1 = none) :
    arrayOpCore t n (.ok .jnull) k c =
      (.error .invalidResponse, (getFromCache t n c k).2, 1) := by
  simp only [arrayOpCore]
  rw [hmiss]
  rfl

theorem arrayOpCore_otherBody (t n : Int) (b : Bool) (k : String) (c : Cache)
    (hmiss : (getFromCache t n c k).1 = none) :
    arrayOpCore t n (.ok (.jother b)) k c =
      (.ok (.arr []), setCache n (getFromCache t n c k).2 k (.arr []), 1) := by
  simp only [arrayOpCore]
  rw [hmiss]
  rfl

theorem arrayOpCore_arrBody (t n : Int) (xs : List Nat) (k : String) (c : Cache)
    (hmiss : (getFromCache t n c k).1 = none) :
    arrayOpCore t n (.ok (.jarr xs)) k c =
      (.ok (.arr xs), setCache n (getFromCache t n c k).2 k (.arr xs), 1) := by
  simp only [arrayOpCore]
  rw [hmiss]
  rfl

theorem arrayOpCore_transportErr (t n : Int) (m : String) (k : String) (c : Cache)
    (hmiss : (getFromCache t n c k).1 = none) :
    arrayOpCore t n (.error m) k c =
      (.error (.transport ("API request failed: " ++ m)),
        (getFromCache t n c k).2, 1) := by
  simp only [arrayOpCore]
  rw [hmiss]
  rfl

theorem checkPublished_miss (t n : Int) (tr : Transport) (i : Int) (c : Cache)
    (hi : 0 < i) (hmiss : (getFromCache t n c (publishedCacheKey i)).1 = none) :
    checkSemesterProgramPublished t n tr i c =
      match tr with
      | .error m =>
          (.error (.transport ("API request failed: " ++ m)),
            (getFromCache t n c (publishedCacheKey i)).2, 1)
      | .ok body =>
          let published := if body ≠ .jnull then body.toBool else false
          (.ok (.bool published),
            setCache n (getFromCache t n c (publishedCacheKey i)).2
              (publishedCacheKey i) (.bool published), 1) := by
  unfold checkSemesterProgramPublished
  rw [if_neg (by omega)]
  simp only []
  rw [hmiss]

/-! ## C2 -/

/-- C2 counterexample: `checkSemesterProgramPublished` is among the listed
operations, yet on a cache miss with a null upstream body it does not raise
an invalid-response error: it returns `false` as a successful result (and
issues the one upstream request). -/
theorem C2_null_body_counterexample :
    (checkSemesterProgramPublished 300000 0 (.ok .jnull) 5 []).1 =
        .ok (.bool false) ∧
      (checkSemesterProgramPublished 300000 0 (.ok .jnull) 5 []).2.2 = 1 := by
  constructor
  · rfl
  · rfl

/-- C2 (amended): on a cache miss with valid parameters, the four
list-returning operations raise the invalid-response error for a null body
and coerce a non-null non-array body to the empty array; the publication
check instead coerces a null body to a successful `false` and a non-null
body to its JS Boolean coercion. -/
theorem C2_null_body (t n i y m ci si pi : Int) (b : Bool) (c : Cache)
    (hi : 0 < i) (hy1 : 2000 ≤ y) (hy2 : y ≤ 3000) (hm1 : 1 ≤ m) (hm2 : m ≤ 12)
    (hci : 0 < ci) (hsi : 0 < si) (hpi : 0 < pi)
    (me : (getFromCache t n c (eventsCacheKey i y m)).1 = none)
    (ms : (getFromCache t n c (subjectsCacheKey i)).1 = none)
    (mg : (getFromCache t n c (groupsCacheKey ci si pi)).1 = none)
    (mc : (getFromCache t n c (coursesCacheKey si pi)).1 = none)
    (mp : (getFromCache t n c (publishedCacheKey i)).1 = none) :
    (fetchSemesterProgramEvents t n (.ok .jnull) i y m c).1 =
        .error .invalidResponse ∧
    (fetchSemesterProgramEvents t n (.ok (.jother b)) i y m c).1 =
        .ok (.arr []) ∧
    (fetchSemesterProgramSubjects t n (.ok .jnull) i c).1 =
        .error .invalidResponse ∧
    (fetchSemesterProgramSubjects t n (.ok (.jother b)) i c).1 =
        .ok (.arr []) ∧
    (findGroupsByCourse t n (.ok .jnull) ci si pi c).1 =
        .error .invalidResponse ∧
    (findGroupsByCourse t n (.ok (.jother b)) ci si pi c).1 =
        .ok (.arr []) ∧
    (findCoursesByProgram t n (.ok .jnull) si pi c).1 =
        .error .invalidResponse ∧
    (findCoursesByProgram t n (.ok (.jother b)) si pi c).1 =
        .ok (.arr []) ∧
    (checkSemesterProgramPublished t n (.ok .jnull) i c).1 =
        .ok (.bool false) ∧
    (checkSemesterProgramPublished t n (.ok (.jother b)) i c).1 =
        .ok (.bool b) := by
  have hv := validateEvents_ok i y m hi hy1 hy2 hm1 hm2
  have hg := validateGroups_ok ci si pi hci hsi hpi
  have hc := validateCourses_ok si pi hsi hpi
  refine ⟨?_, ?_, ?_, ?_, ?_, ?_, ?_, ?_, ?_, ?_⟩
  · rw [fetchEvents_eq_core t n _ i y m c hv, arrayOpCore_nullBody t n _ c me]
  · rw [fetchEvents_eq_core t n _ i y m c hv, arrayOpCore_otherBody t n b _ c me]
  · rw [fetchSubjects_eq_core t n _ i c hi, arrayOpCore_nullBody t n _ c ms]
  · rw [fetchSubjects_eq_core t n _ i c hi, arrayOpCore_otherBody t n b _ c ms]
  · rw [findGroups_eq_core t n _ ci si pi c hg, arrayOpCore_nullBody t n _ c mg]
  · rw [findGroups_eq_core t n _ ci si pi c hg, arrayOpCore_otherBody t n b _ c mg]
  · rw [findCourses_eq_core t n _ si pi c hc, arrayOpCore_nullBody t n _ c mc]
  · rw [findCourses_eq_core t n _ si pi c hc, arrayOpCore_otherBody t n b _ c mc]
  · rw [checkPublished_miss t n _ i c hi mp]
    rfl
  · rw [checkPublished_miss t n _ i c hi mp]
    rfl

/-- C2 witness: concrete instance on the empty cache. -/
theorem C2_null_body_witness :
    (fetchSemesterProgramEvents 300000 0 (.ok .jnull) 1 2024 5 []).1 =
      .error .invalidResponse := by
  rw [(C2_null_body 300000 0 1 2024 5 2 3 4 true []
    (by decide) (by decide) (by decide) (by decide) (by decide)
    (by decide) (by decide) (by decide)
    (by rfl) (by rfl) (by rfl) (by rfl) (by rfl)).1]

/-! ## Date range resolution lemmas -/

theorem transform_default_dates (lp : String → ParsedLabel) (nowDate : HDate)
    (semester : Semester) (metadata : SemesterMetadata)
    (hdef : semester.isSelected = false ∨ metadata.startDate = none ∨
      metadata.endDate = none) :
    (transformToStudyPeriod lp nowDate semester metadata).startDate =
        (defaultDates (lp semester.name).academicYear
          (lp semester.name).season nowDate).1 ∧
      (transformToStudyPeriod lp nowDate semester metadata).endDate =
        (defaultDates (lp semester.name).academicYear
          (lp semester.name).season nowDate).2 := by
  obtain ⟨sid, sname, ssel⟩ := semester
  obtain ⟨ms, me⟩ := metadata
  cases ssel <;> cases ms <;> cases me <;> simp_all [transformToStudyPeriod]

/-! ## C5 -/

/-- C5: a selected period with both authoritative metadata dates present gets
exactly those dates, for every season tag and academic-year string (the label
parser outputs `lp` are universally quantified). -/
theorem C5_selected_verbatim (lp : String → ParsedLabel) (nowDate : HDate)
    (semester : Semester) (metadata : SemesterMetadata) (s e : HDate)
    (hsel : semester.isSelected = true) (hs : metadata.startDate = some s)
    (he : metadata.endDate = some e) :
    (transformToStudyPeriod lp nowDate semester metadata).startDate = s ∧
      (transformToStudyPeriod lp nowDate semester metadata).endDate = e := by
  obtain ⟨sid, sname, ssel⟩ := semester
  obtain ⟨ms, me⟩ := metadata
  subst hsel
  simp_all [transformToStudyPeriod]

/-- C5 witness: the spec scenario, authoritative dates 2024-09-01 and
2025-01-31 (month indices 8 and 0) returned verbatim. -/
theorem C5_selected_verbatim_witness :
    (transformToStudyPeriod (fun _ => ⟨"c", "1999/1999", "spring"⟩) ⟨2024, 0, 1⟩
        ⟨1, "x", true⟩ ⟨some ⟨2024, 8, 1⟩, some ⟨2025, 0, 31⟩⟩).startDate =
        ⟨2024, 8, 1⟩ ∧
      (transformToStudyPeriod (fun _ => ⟨"c", "1999/1999", "spring"⟩) ⟨2024, 0, 1⟩
        ⟨1, "x", true⟩ ⟨some ⟨2024, 8, 1⟩, some ⟨2025, 0, 31⟩⟩).endDate =
        ⟨2025, 0, 31⟩ :=
  C5_selected_verbatim (fun _ => ⟨"c", "1999/1999", "spring"⟩) ⟨2024, 0, 1⟩
    ⟨1, "x", true⟩ ⟨some ⟨2024, 8, 1⟩, some ⟨2025, 0, 31⟩⟩ ⟨2024, 8, 1⟩ ⟨2025, 0, 31⟩
    rfl rfl rfl

/-! ## C4 -/

/-- C4: for a period resolved by the default computation (not selected, or an
authoritative date missing), the dates follow the season switch on the years
parsed from the `YYYY/YYYY` academic-year string, with current year and
current+1 as fallback. Month fields are 0-based JS month indices: autumn is
(startYear, 8, 1) to (endYear, 0, 31), i.e. Sep 1 to Jan 31; spring is
(endYear, 1, 1) to (endYear, 5, 30), i.e. Feb 1 to Jun 30; summer is
(endYear, 6, 1) to (endYear, 7, 31), i.e. Jul 1 to Aug 31; any other season
gives the current date twice. -/
theorem C4_default_dates (lp : String → ParsedLabel) (nowDate : HDate)
    (semester : Semester) (metadata : SemesterMetadata) (sy ey : Int)
    (hdef : semester.isSelected = false ∨ metadata.startDate = none ∨
      metadata.endDate = none)
    (hsy : sy = (match matchYearRange (lp semester.name).academicYear with
      | some pr => (pr.1 : Int)
      | none => nowDate.year))
    (hey : ey = (match matchYearRange (lp semester.name).academicYear with
      | some pr => (pr.2 : Int)
      | none => nowDate.year + 1)) :
    ((lp semester.name).season = "autumn" →
      (transformToStudyPeriod lp nowDate semester metadata).startDate =
          ⟨sy, 8, 1⟩ ∧
        (transformToStudyPeriod lp nowDate semester metadata).endDate =
          ⟨ey, 0, 31⟩) ∧
    ((lp semester.name).season = "spring" →
      (transformToStudyPeriod lp nowDate semester metadata).startDate =
          ⟨ey, 1, 1⟩ ∧
        (transformToStudyPeriod lp nowDate semester metadata).endDate =
          ⟨ey, 5, 30⟩) ∧
    ((lp semester.name).season = "summer" →
      (transformToStudyPeriod lp nowDate semester metadata).startDate =
          ⟨ey, 6, 1⟩ ∧
        (transformToStudyPeriod lp nowDate semester metadata).endDate =
          ⟨ey, 7, 31⟩) ∧
    ((lp semester.name).season ≠ "autumn" →
      (lp semester.name).season ≠ "spring" →
      (lp semester.name).season ≠ "summer" →
      (transformToStudyPeriod lp nowDate semester metadata).startDate = nowDate ∧
        (transformToStudyPeriod lp nowDate semester metadata).endDate = nowDate) := by
  obtain ⟨hd1, hd2⟩ := transform_default_dates lp nowDate semester metadata hdef
  refine ⟨?_, ?_, ?_, ?_⟩
  · intro hse
    rw [hse] at hd1 hd2
    rw [hd1, hd2]
    cases hm : matchYearRange ((lp semester.name).academicYear) with
    | some pr =>
        rw [hm] at hsy hey
        subst hsy; subst hey
        simp [defaultDates, hm]
    | none =>
        rw [hm] at hsy hey
        subst hsy; subst hey
        simp [defaultDates, hm]
  · intro hse
    rw [hse] at hd1 hd2
    rw [hd1, hd2]
    cases hm : matchYearRange ((lp semester.name).academicYear) with
    | some pr =>
        rw [hm] at hsy hey
        subst hsy; subst hey
        simp [defaultDates, hm]
    | none =>
        rw [hm] at hsy hey
        subst hsy; subst hey
        simp [defaultDates, hm]
  · intro hse
    rw [hse] at hd1 hd2
    rw [hd1, hd2]
    cases hm : matchYearRange ((lp semester.name).academicYear) with
    | some pr =>
        rw [hm] at hsy hey
        subst hsy; subst hey
        simp [defaultDates, hm]
    | none =>
        rw [hm] at hsy hey
        subst hsy; subst hey
        simp [defaultDates, hm]
  · intro hn1 hn2 hn3
    rw [hd1, hd2]
    simp [defaultDates, hn1, hn2, hn3]

/-- C4 witness: the spec example, not selected, season spring, academic year
2024/2025 resolves to (2025, Feb 1) through (2025, Jun 30). -/
theorem C4_default_dates_witness :
    (transformToStudyPeriod (fun _ => ⟨"c", "2024/2025", "spring"⟩) ⟨2024, 0, 1⟩
        ⟨1, "x", false⟩ ⟨none, none⟩).startDate = ⟨2025, 1, 1⟩ ∧
      (transformToStudyPeriod (fun _ => ⟨"c", "2024/2025", "spring"⟩) ⟨2024, 0, 1⟩
        ⟨1, "x", false⟩ ⟨none, none⟩).endDate = ⟨2025, 5, 30⟩ :=
  (C4_default_dates (fun _ => ⟨"c", "2024/2025", "spring"⟩) ⟨2024, 0, 1⟩
    ⟨1, "x", false⟩ ⟨none, none⟩ 2024 2025 (Or.inl rfl) (by rfl) (by rfl)).2.1 rfl

/-! ## C3 -/

/-- C3 counterexample: a selected semester whose authoritative metadata dates
are out of order (start 2025-06-01, end 2024-09-01) is returned verbatim, so
the produced StudyPeriod violates start ≤ end. -/
theorem C3_start_le_end_counterexample :
    ¬ HDate.le
      (transformToStudyPeriod (fun _ => ⟨"c", "2024/2025", "autumn"⟩) ⟨2024, 0, 1⟩
        ⟨1, "x", true⟩ ⟨some ⟨2025, 5, 1⟩, some ⟨2024, 8, 1⟩⟩).startDate
      (transformToStudyPeriod (fun _ => ⟨"c", "2024/2025", "autumn"⟩) ⟨2024, 0, 1⟩
        ⟨1, "x", true⟩ ⟨some ⟨2025, 5, 1⟩, some ⟨2024, 8, 1⟩⟩).endDate := by
  decide

/-- C3 (amended): start ≤ end holds for every period resolved by the default
computation, provided that when the season is autumn and the academic-year
string parses, its first year is strictly below its second (always true for
well-formed `Y/Y+1` strings and for the unparseable fallback). Periods that
take their dates verbatim from metadata carry no such guarantee, as the
counterexample shows. -/
theorem C3_start_le_end (lp : String → ParsedLabel) (nowDate : HDate)
    (semester : Semester) (metadata : SemesterMetadata)
    (hdef : semester.isSelected = false ∨ metadata.startDate = none ∨
      metadata.endDate = none)
    (haut : (lp semester.name).season = "autumn" →
      ∀ a b : Nat, matchYearRange (lp semester.name).academicYear = some (a, b) →
        a < b) :
    HDate.le (transformToStudyPeriod lp nowDate semester metadata).startDate
      (transformToStudyPeriod lp nowDate semester metadata).endDate := by
  obtain ⟨hd1, hd2⟩ := transform_default_dates lp nowDate semester metadata hdef
  rw [hd1, hd2]
  by_cases h1 : (lp semester.name).season = "autumn"
  · rw [h1]
    cases hm : matchYearRange ((lp semester.name).academicYear) with
    | some pr =>
        have hab : pr.1 < pr.2 := haut h1 pr.1 pr.2 (by rw [hm])
        simp only [defaultDates, hm]
        exact Or.inl (show (pr.1 : Int) < (pr.2 : Int) by exact_mod_cast hab)
    | none =>
        simp only [defaultDates, hm]
        exact Or.inl (show nowDate.year < nowDate.year + 1 by omega)
  · by_cases h2 : (lp semester.name).season = "spring"
    · rw [h2]
      cases hm : matchYearRange ((lp semester.name).academicYear) with
      | some pr =>
          simp only [defaultDates, hm]
          exact Or.inr ⟨rfl, Or.inl (show (1 : Nat) < 5 by decide)⟩
      | none =>
          simp only [defaultDates, hm]
          exact Or.inr ⟨rfl, Or.inl (show (1 : Nat) < 5 by decide)⟩
    · by_cases h3 : (lp semester.name).season = "summer"
      · rw [h3]
        cases hm : matchYearRange ((lp semester.name).academicYear) with
        | some pr =>
            simp only [defaultDates, hm]
            exact Or.inr ⟨rfl, Or.inl (show (6 : Nat) < 7 by decide)⟩
        | none =>
            simp only [defaultDates, hm]
            exact Or.inr ⟨rfl, Or.inl (show (6 : Nat) < 7 by decide)⟩
      · have hred :
            defaultDates (lp semester.name).academicYear
              (lp semester.name).season nowDate = (nowDate, nowDate) := by
          simp [defaultDates, h1, h2, h3]
        rw [hred]
        exact Or.inr ⟨rfl, Or.inr ⟨rfl, le_refl _⟩⟩

/-- C3 witness: an unselected autumn period with academic year 2024/2025 has
an ordered date range. -/
theorem C3_start_le_end_witness :
    HDate.le
      (transformToStudyPeriod (fun _ => ⟨"c", "2024/2025", "autumn"⟩) ⟨2024, 0, 1⟩
        ⟨1, "x", false⟩ ⟨none, none⟩).startDate
      (transformToStudyPeriod (fun _ => ⟨"c", "2024/2025", "autumn"⟩) ⟨2024, 0, 1⟩
        ⟨1, "x", false⟩ ⟨none, none⟩).endDate :=
  C3_start_le_end (fun _ => ⟨"c", "2024/2025", "autumn"⟩) ⟨2024, 0, 1⟩
    ⟨1, "x", false⟩ ⟨none, none⟩ (Or.inl rfl)
    (fun _ a b hab => by
      have hc : matchYearRange "2024/2025" = some (2024, 2025) := by decide
      have h := hc.symm.trans hab
      injection h with h1
      injection h1 with h2 h3
      omega)

/-! ## C7 -/

/-- C7: every operation validates its parameters first: an out-of-range
parameter yields the parameter-specific validation error with the cache
untouched and zero upstream requests, for every transport. The checks run in
source order, so each conjunct assumes the earlier parameters are in range. -/
theorem C7_validation (t n : Int) (tr : Transport) (i y m ci si pi : Int)
    (c : Cache) :
    (i ≤ 0 → fetchSemesterProgramEvents t n tr i y m c =
      (.error (.validation "Invalid semesterProgramId"), c, 0)) ∧
    (0 < i → y < 2000 ∨ 3000 < y → fetchSemesterProgramEvents t n tr i y m c =
      (.error (.validation "Invalid year"), c, 0)) ∧
    (0 < i → 2000 ≤ y → y ≤ 3000 → m < 1 ∨ 12 < m →
      fetchSemesterProgramEvents t n tr i y m c =
        (.error (.validation "Invalid month"), c, 0)) ∧
    (i ≤ 0 → fetchSemesterProgramSubjects t n tr i c =
      (.error (.validation "Invalid semesterProgramId"), c, 0)) ∧
    (i ≤ 0 → checkSemesterProgramPublished t n tr i c =
      (.error (.validation "Invalid semesterProgramId"), c, 0)) ∧
    (ci ≤ 0 → findGroupsByCourse t n tr ci si pi c =
      (.error (.validation "Invalid courseId"), c, 0)) ∧
    (0 < ci → si ≤ 0 → findGroupsByCourse t n tr ci si pi c =
      (.error (.validation "Invalid semesterId"), c, 0)) ∧
    (0 < ci → 0 < si → pi ≤ 0 → findGroupsByCourse t n tr ci si pi c =
      (.error (.validation "Invalid programId"), c, 0)) ∧
    (si ≤ 0 → findCoursesByProgram t n tr si pi c =
      (.error (.validation "Invalid semesterId"), c, 0)) ∧
    (0 < si → pi ≤ 0 → findCoursesByProgram t n tr si pi c =
      (.error (.validation "Invalid programId"), c, 0)) := by
  refine ⟨?_, ?_, ?_, ?_, ?_, ?_, ?_, ?_, ?_, ?_⟩
  · intro h
    unfold fetchSemesterProgramEvents validateSemesterProgramEventsParams
    rw [if_pos (Or.inr h)]
  · intro h1 h2
    unfold fetchSemesterProgramEvents validateSemesterProgramEventsParams
    rw [if_neg (by omega), if_pos (by omega)]
  · intro h1 h2 h3 h4
    unfold fetchSemesterProgramEvents validateSemesterProgramEventsParams
    rw [if_neg (by omega), if_neg (by omega), if_pos (by omega)]
  · intro h
    unfold fetchSemesterProgramSubjects
    rw [if_pos (Or.inr h)]
  · intro h
    unfold checkSemesterProgramPublished
    rw [if_pos (Or.inr h)]
  · intro h
    unfold findGroupsByCourse validateGroupsByCourseParams
    rw [if_pos (Or.inr h)]
  · intro h1 h2
    unfold findGroupsByCourse validateGroupsByCourseParams
    rw [if_neg (by omega), if_pos (Or.inr h2)]
  · intro h1 h2 h3
    unfold findGroupsByCourse validateGroupsByCourseParams
    rw [if_neg (by omega), if_neg (by omega), if_pos (Or.inr h3)]
  · intro h
    unfold findCoursesByProgram validateCoursesByProgramParams
    rw [if_pos (Or.inr h)]
  · intro h1 h2
    unfold findCoursesByProgram validateCoursesByProgramParams
    rw [if_neg (by omega), if_pos (Or.inr h2)]

/-- C7 witness: the spec instance: semesterProgramId 0, year 2024, month 5
raises the semesterProgramId validation error with zero requests and the
cache untouched, whatever the transport would have answered. -/
theorem C7_validation_witness :
    fetchSemesterProgramEvents 300000 0 (.ok (.jarr [1])) 0 2024 5 [] =
      (.error (.validation "Invalid semesterProgramId"), [], 0) :=
  (C7_validation 300000 0 (.ok (.jarr [1])) 0 2024 5 1 1 1 []).1 (by decide)

/-! ## C8 -/

theorem checkPublished_hit (t n : Int) (tr : Transport) (i : Int) (c : Cache)
    (d : CacheData) (hi : 0 < i)
    (h1 : (getFromCache t n c (publishedCacheKey i)).1 = some d) :
    checkSemesterProgramPublished t n tr i c =
      (.ok d, (getFromCache t n c (publishedCacheKey i)).2, 0) := by
  unfold checkSemesterProgramPublished
  rw [if_neg (by omega)]
  simp only []
  rw [h1]

/-- C8: a cached `false` publication result is a real cache hit. After a
first call that stored `false` (upstream body coerced to false), a second
call within the TTL returns `false` from the cache, issues zero upstream
requests (the transport argument of the second call is arbitrary), and
leaves the cache unchanged. -/
theorem C8_cached_false (t t0 t1 : Int) (tr2 : Transport) (i : Int) (c : Cache)
    (hi : 0 < i) (hmiss : alookup c (publishedCacheKey i) = none)
    (hfresh : t1 - t0 < t) :
    checkSemesterProgramPublished t t0 (.ok (.jother false)) i c =
      (.ok (.bool false), setCache t0 c (publishedCacheKey i) (.bool false), 1) ∧
    checkSemesterProgramPublished t t1 tr2 i
        (setCache t0 c (publishedCacheKey i) (.bool false)) =
      (.ok (.bool false), setCache t0 c (publishedCacheKey i) (.bool false), 0) := by
  have h0 := getFromCache_absent t t0 c (publishedCacheKey i) hmiss
  constructor
  · rw [checkPublished_miss t t0 _ i c hi (by rw [h0])]
    rw [h0]
    rfl
  · have hl : alookup (setCache t0 c (publishedCacheKey i) (.bool false))
        (publishedCacheKey i) = some ⟨.bool false, t0⟩ :=
      alookup_aset_self c (publishedCacheKey i) ⟨.bool false, t0⟩
    have hh := getFromCache_hit t t1 t0
      (setCache t0 c (publishedCacheKey i) (.bool false)) (publishedCacheKey i)
      (.bool false) hl hfresh
    rw [checkPublished_hit t t1 tr2 i _ (.bool false) hi (by rw [hh])]
    rw [hh]

/-- C8 witness: id 3, TTL 10, first call at time 0 and second at time 5
on the empty initial cache; the second call answers `false` with zero
requests although its transport would fail. -/
theorem C8_cached_false_witness :
    checkSemesterProgramPublished 10 5 (.error "down") 3
        (setCache 0 [] (publishedCacheKey 3) (.bool false)) =
      (.ok (.bool false), setCache 0 [] (publishedCacheKey 3) (.bool false), 0) :=
  (C8_cached_false 10 0 5 (.error "down") 3 [] (by decide) (by rfl)
    (by decide)).2

/-! ## C9 -/

/-- The coercion `Array.isArray(response.data) ? response.data : []`. -/
def coerceArray : JsonBody → List Nat
  | .jarr xs => xs
  | _ => []

/-- The coercion `response.data != null ? Boolean(response.data) : false`. -/
def coerceBool (body : JsonBody) : Bool :=
  if body ≠ .jnull then body.toBool else false

theorem arrayOpCore_hit (t n : Int) (tr : Transport) (k : String) (c : Cache)
    (d : CacheData) (h1 : (getFromCache t n c k).1 = some d)
    (ht : d.truthy = true) :
    arrayOpCore t n tr k c = (.ok d, (getFromCache t n c k).2, 0) := by
  simp only [arrayOpCore]
  rw [h1]
  exact if_pos ht

theorem arrayOp_two_calls (t t0 t1 : Int) (body1 : JsonBody) (tr2 : Transport)
    (k : String) (c : Cache) (hmiss : alookup c k = none) (hb : body1 ≠ .jnull)
    (hfresh : t1 - t0 < t) :
    arrayOpCore t t0 (.ok body1) k c =
      (.ok (.arr (coerceArray body1)),
        setCache t0 c k (.arr (coerceArray body1)), 1) ∧
    arrayOpCore t t1 tr2 k (setCache t0 c k (.arr (coerceArray body1))) =
      (.ok (.arr (coerceArray body1)),
        setCache t0 c k (.arr (coerceArray body1)), 0) := by
  have h0 := getFromCache_absent t t0 c k hmiss
  constructor
  · cases body1 with
    | jnull => exact absurd rfl hb
    | jarr xs =>
        rw [arrayOpCore_arrBody t t0 xs k c (by rw [h0]), h0]
        rfl
    | jother b =>
        rw [arrayOpCore_otherBody t t0 b k c (by rw [h0]), h0]
        rfl
  · have hl : alookup (setCache t0 c k (.arr (coerceArray body1))) k =
        some ⟨.arr (coerceArray body1), t0⟩ := alookup_aset_self c k _
    have hh := getFromCache_hit t t1 t0
      (setCache t0 c k (.arr (coerceArray body1))) k
      (.arr (coerceArray body1)) hl hfresh
    rw [arrayOpCore_hit t t1 tr2 k _ (.arr (coerceArray body1)) (by rw [hh]) rfl]
    rw [hh]

theorem checkPublished_two_calls (t t0 t1 : Int) (body1 : JsonBody)
    (tr2 : Transport) (i : Int) (c : Cache) (hi : 0 < i)
    (hmiss : alookup c (publishedCacheKey i) = none) (hfresh : t1 - t0 < t) :
    checkSemesterProgramPublished t t0 (.ok body1) i c =
      (.ok (.bool (coerceBool body1)),
        setCache t0 c (publishedCacheKey i) (.bool (coerceBool body1)), 1) ∧
    checkSemesterProgramPublished t t1 tr2 i
        (setCache t0 c (publishedCacheKey i) (.bool (coerceBool body1))) =
      (.ok (.bool (coerceBool body1)),
        setCache t0 c (publishedCacheKey i) (.bool (coerceBool body1)), 0) := by
  have h0 := getFromCache_absent t t0 c (publishedCacheKey i) hmiss
  constructor
  · rw [checkPublished_miss t t0 _ i c hi (by rw [h0])]
    rw [h0]
    rfl
  · have hl : alookup
        (setCache t0 c (publishedCacheKey i) (.bool (coerceBool body1)))
        (publishedCacheKey i) = some ⟨.bool (coerceBool body1), t0⟩ :=
      alookup_aset_self c (publishedCacheKey i) _
    have hh := getFromCache_hit t t1 t0 _ (publishedCacheKey i)
      (.bool (coerceBool body1)) hl hfresh
    rw [checkPublished_hit t t1 tr2 i _ (.bool (coerceBool body1)) hi
      (by rw [hh])]
    rw [hh]

/-- C9: for each operation, two calls with identical parameters hit the same
deterministic cache key; starting from a cache without that key, a first call
answered by the upstream issues exactly one request, and a second call within
the TTL returns the same value with zero requests (its transport argument is
arbitrary), so the two calls issue exactly one request in total. -/
theorem C9_single_upstream (t t0 t1 : Int) (body1 : JsonBody) (tr2 : Transport)
    (i y m ci si pi : Int) (c : Cache)
    (hi : 0 < i) (hy1 : 2000 ≤ y) (hy2 : y ≤ 3000) (hm1 : 1 ≤ m) (hm2 : m ≤ 12)
    (hci : 0 < ci) (hsi : 0 < si) (hpi : 0 < pi)
    (hb : body1 ≠ .jnull) (hfresh : t1 - t0 < t)
    (me : alookup c (eventsCacheKey i y m) = none)
    (ms : alookup c (subjectsCacheKey i) = none)
    (mg : alookup c (groupsCacheKey ci si pi) = none)
    (mc : alookup c (coursesCacheKey si pi) = none)
    (mp : alookup c (publishedCacheKey i) = none) :
    (fetchSemesterProgramEvents t t0 (.ok body1) i y m c =
        (.ok (.arr (coerceArray body1)),
          setCache t0 c (eventsCacheKey i y m) (.arr (coerceArray body1)), 1) ∧
      fetchSemesterProgramEvents t t1 tr2 i y m
          (setCache t0 c (eventsCacheKey i y m) (.arr (coerceArray body1))) =
        (.ok (.arr (coerceArray body1)),
          setCache t0 c (eventsCacheKey i y m) (.arr (coerceArray body1)), 0)) ∧
    (fetchSemesterProgramSubjects t t0 (.ok body1) i c =
        (.ok (.arr (coerceArray body1)),
          setCache t0 c (subjectsCacheKey i) (.arr (coerceArray body1)), 1) ∧
      fetchSemesterProgramSubjects t t1 tr2 i
          (setCache t0 c (subjectsCacheKey i) (.arr (coerceArray body1))) =
        (.ok (.arr (coerceArray body1)),
          setCache t0 c (subjectsCacheKey i) (.arr (coerceArray body1)), 0)) ∧
    (findGroupsByCourse t t0 (.ok body1) ci si pi c =
        (.ok (.arr (coerceArray body1)),
          setCache t0 c (groupsCacheKey ci si pi) (.arr (coerceArray body1)), 1) ∧
      findGroupsByCourse t t1 tr2 ci si pi
          (setCache t0 c (groupsCacheKey ci si pi) (.arr (coerceArray body1))) =
        (.ok (.arr (coerceArray body1)),
          setCache t0 c (groupsCacheKey ci si pi) (.arr (coerceArray body1)), 0)) ∧
    (findCoursesByProgram t t0 (.ok body1) si pi c =
        (.ok (.arr (coerceArray body1)),
          setCache t0 c (coursesCacheKey si pi) (.arr (coerceArray body1)), 1) ∧
      findCoursesByProgram t t1 tr2 si pi
          (setCache t0 c (coursesCacheKey si pi) (.arr (coerceArray body1))) =
        (.ok (.arr (coerceArray body1)),
          setCache t0 c (coursesCacheKey si pi) (.arr (coerceArray body1)), 0)) ∧
    (checkSemesterProgramPublished t t0 (.ok body1) i c =
        (.ok (.bool (coerceBool body1)),
          setCache t0 c (publishedCacheKey i) (.bool (coerceBool body1)), 1) ∧
      checkSemesterProgramPublished t t1 tr2 i
          (setCache t0 c (publishedCacheKey i) (.bool (coerceBool body1))) =
        (.ok (.bool (coerceBool body1)),
          setCache t0 c (publishedCacheKey i) (.bool (coerceBool body1)), 0)) := by
  have hv := validateEvents_ok i y m hi hy1 hy2 hm1 hm2
  have hg := validateGroups_ok ci si pi hci hsi hpi
  have hc := validateCourses_ok si pi hsi hpi
  have he2 := arrayOp_two_calls t t0 t1 body1 tr2 (eventsCacheKey i y m) c me hb hfresh
  have hs2 := arrayOp_two_calls t t0 t1 body1 tr2 (subjectsCacheKey i) c ms hb hfresh
  have hg2 := arrayOp_two_calls t t0 t1 body1 tr2 (groupsCacheKey ci si pi) c mg hb hfresh
  have hc2 := arrayOp_two_calls t t0 t1 body1 tr2 (coursesCacheKey si pi) c mc hb hfresh
  refine ⟨⟨?_, ?_⟩, ⟨?_, ?_⟩, ⟨?_, ?_⟩, ⟨?_, ?_⟩,
    checkPublished_two_calls t t0 t1 body1 tr2 i c hi mp hfresh⟩
  · rw [fetchEvents_eq_core t t0 _ i y m c hv]
    exact he2.1
  · rw [fetchEvents_eq_core t t1 tr2 i y m _ hv]
    exact he2.2
  · rw [fetchSubjects_eq_core t t0 _ i c hi]
    exact hs2.1
  · rw [fetchSubjects_eq_core t t1 tr2 i _ hi]
    exact hs2.2
  · rw [findGroups_eq_core t t0 _ ci si pi c hg]
    exact hg2.1
  · rw [findGroups_eq_core t t1 tr2 ci si pi _ hg]
    exact hg2.2
  · rw [findCourses_eq_core t t0 _ si pi c hc]
    exact hc2.1
  · rw [findCourses_eq_core t t1 tr2 si pi _ hc]
    exact hc2.2

/-- C9 witness: a first events call at time 0 (upstream answers `[4]`) and
a second at time 5 with TTL 10; the second is a pure cache hit with zero
requests although its transport would fail. -/
theorem C9_single_upstream_witness :
    fetchSemesterProgramEvents 10 5 (.error "down") 1 2024 5
        (setCache 0 [] (eventsCacheKey 1 2024 5) (.arr [4])) =
      (.ok (.arr [4]), setCache 0 [] (eventsCacheKey 1 2024 5) (.arr [4]), 0) :=
  ((C9_single_upstream 10 0 5 (.jarr [4]) (.error "down") 1 2024 5 2 3 4 []
    (by decide) (by decide) (by decide) (by decide) (by decide)
    (by decide) (by decide) (by decide) (by decide) (by decide)
    (by rfl) (by rfl) (by rfl) (by rfl) (by rfl)).1).2

/-! ## Discovery cache state lemmas -/

theorem getCachedPrograms_periods (t n : Int) (st : DiscoveryState) (pid : Int) :
    (getCachedPrograms t n st pid).2.periodsCache = st.periodsCache := by
  unfold getCachedPrograms
  cases alookup st.programsCache pid with
  | none => rfl
  | some e => by_cases hs : n - e.timestamp > t <;> simp [hs]

theorem getCachedPrograms_frame (t n : Int) (st : DiscoveryState) (pid q : Int)
    (h : q ≠ pid) :
    alookup (getCachedPrograms t n st pid).2.programsCache q =
      alookup st.programsCache q := by
  unfold getCachedPrograms
  cases alookup st.programsCache pid with
  | none => rfl
  | some e =>
      by_cases hs : n - e.timestamp > t
      · simp only [if_pos hs]
        exact alookup_aerase_ne st.programsCache pid q h
      · simp only [if_neg hs]

theorem getCachedPrograms_slot (t n : Int) (st : DiscoveryState) (pid : Int) :
    alookup (getCachedPrograms t n st pid).2.programsCache pid =
        alookup st.programsCache pid ∨
      (alookup (getCachedPrograms t n st pid).2.programsCache pid = none ∧
        ∃ e, alookup st.programsCache pid = some e ∧ t < n - e.timestamp) := by
  unfold getCachedPrograms
  cases hm : alookup st.programsCache pid with
  | none => exact Or.inl hm
  | some e =>
      by_cases hs : n - e.timestamp > t
      · simp only [if_pos hs]
        exact Or.inr ⟨alookup_aerase_self st.programsCache pid, e, rfl, by omega⟩
      · simp only [if_neg hs]
        exact Or.inl hm

theorem getCachedPrograms_fst_congr (t m : Int) (st1 st2 : DiscoveryState)
    (q : Int)
    (h : alookup st1.programsCache q = alookup st2.programsCache q) :
    (getCachedPrograms t m st1 q).1 = (getCachedPrograms t m st2 q).1 := by
  unfold getCachedPrograms
  rw [h]
  cases alookup st2.programsCache q with
  | none => rfl
  | some e => by_cases hs : m - e.timestamp > t <;> simp [hs]

/-! ## C10 -/

/-- C10: a successful `discoverPrograms(p)` touches only the programs-cache
slot of `p`: the periods cache is unchanged, the programs-cache entry of any
other period id is unchanged, and a later cache read for another period id
(at any time and with any timeout) sees the same answer as before the call. -/
theorem C10_programs_frame (ppn : String → String) (t n : Int) (pid : Int)
    (g : Except String (List Faculty)) (st st2 : DiscoveryState)
    (xs : List StudyProgram)
    (h : discoverPrograms ppn t n pid g st = (.ok xs, st2)) :
    st2.periodsCache = st.periodsCache ∧
    ∀ q, q ≠ pid →
      alookup st2.programsCache q = alookup st.programsCache q ∧
      ∀ t2 n2 : Int,
        (getCachedPrograms t2 n2 st2 q).1 = (getCachedPrograms t2 n2 st q).1 := by
  simp only [discoverPrograms] at h
  split at h
  · -- cache hit
    injection h with h1 h2
    subst h2
    refine ⟨getCachedPrograms_periods t n st pid, fun q hq => ?_⟩
    have he := getCachedPrograms_frame t n st pid q hq
    exact ⟨he, fun t2 n2 => getCachedPrograms_fst_congr t2 n2 _ st q he⟩
  · -- cache miss
    split at h
    · -- fetch failed: result is an error, contradiction
      exact absurd (congrArg Prod.fst h) (by simp)
    · -- fetch succeeded: the slot for pid is overwritten, others untouched
      rename_i fetched faculties
      injection h with h1 h2
      subst h2
      refine ⟨getCachedPrograms_periods t n st pid, fun q hq => ?_⟩
      have he : alookup
          (aset (getCachedPrograms t n st pid).2.programsCache pid
            ⟨transformFacultiesToPrograms ppn faculties, n⟩) q =
          alookup st.programsCache q := by
        rw [alookup_aset_ne _ pid q _ hq]
        exact getCachedPrograms_frame t n st pid q hq
      exact ⟨he, fun t2 n2 => getCachedPrograms_fst_congr t2 n2 _ st q he⟩

/-- C10 witness: discovering programs for period 1 on a state that caches
periods and the programs of period 3 leaves both untouched. -/
theorem C10_programs_frame_witness :
    (⟨some ⟨[], 5⟩, [(1, ⟨[], 0⟩), (3, ⟨[], 0⟩)]⟩ :
        DiscoveryState).periodsCache =
      (⟨some ⟨[], 5⟩, [(3, ⟨[], 0⟩)]⟩ : DiscoveryState).periodsCache ∧
    alookup (⟨some ⟨[], 5⟩, [(1, ⟨[], 0⟩), (3, ⟨[], 0⟩)]⟩ :
        DiscoveryState).programsCache 3 =
      alookup (⟨some ⟨[], 5⟩, [(3, ⟨[], 0⟩)]⟩ : DiscoveryState).programsCache 3 :=
  have h := C10_programs_frame (fun s => s) 100 0 1 (.ok [])
    ⟨some ⟨[], 5⟩, [(3, ⟨[], 0⟩)]⟩
    ⟨some ⟨[], 5⟩, [(1, ⟨[], 0⟩), (3, ⟨[], 0⟩)]⟩ [] (by rfl)
  ⟨h.1, (h.2 3 (by decide)).1⟩

/-! ## Error-path cache lemmas -/

theorem getFromCache_snd_slot (t n : Int) (c : Cache) (k : String) :
    alookup (getFromCache t n c k).2 k = alookup c k ∨
      (alookup (getFromCache t n c k).2 k = none ∧
        ∃ e, alookup c k = some e ∧ t ≤ n - e.timestamp) := by
  unfold getFromCache
  cases hm : alookup c k with
  | none => exact Or.inl hm
  | some e =>
      by_cases hf : n - e.timestamp < t
      · simp only [if_pos hf]
        exact Or.inl hm
      · simp only [if_neg hf]
        exact Or.inr ⟨alookup_aerase_self c k, e, rfl, by omega⟩

theorem cache_frame_of_cases (t n : Int) (c c2 : Cache) (k : String)
    (h : c2 = c ∨ c2 = (getFromCache t n c k).2) :
    (∀ k2, k2 ≠ k → alookup c2 k2 = alookup c k2) ∧
    (alookup c2 k = alookup c k ∨
      (alookup c2 k = none ∧ ∃ e, alookup c k = some e ∧ t ≤ n - e.timestamp)) := by
  cases h with
  | inl hh =>
      subst hh
      exact ⟨fun _ _ => rfl, Or.inl rfl⟩
  | inr hh =>
      subst hh
      exact ⟨fun k2 hk => getFromCache_lookup_frame t n c k k2 hk,
        getFromCache_snd_slot t n c k⟩

theorem arrayOpCore_error_cache (t n : Int) (tr : Transport) (k : String)
    (c : Cache) (err : ApiError)
    (h : (arrayOpCore t n tr k c).1 = .error err) :
    (arrayOpCore t n tr k c).2.1 = (getFromCache t n c k).2 := by
  simp only [arrayOpCore] at h ⊢
  cases hm : (getFromCache t n c k).1 with
  | some d =>
      simp only [hm] at h ⊢
      by_cases ht : d.truthy = true
      · rw [if_pos ht] at h
        simp at h
      · rw [if_neg ht] at h ⊢
        cases tr with
        | error mm => rfl
        | ok body =>
            cases body with
            | jnull => rfl
            | jarr xs => simp [arrayUpstream] at h
            | jother b => simp [arrayUpstream] at h
  | none =>
      simp only [hm] at h ⊢
      cases tr with
      | error mm => rfl
      | ok body =>
          cases body with
          | jnull => rfl
          | jarr xs => simp [arrayUpstream] at h
          | jother b => simp [arrayUpstream] at h

theorem fetchEvents_error_cache (t n : Int) (tr : Transport) (i y m : Int)
    (c : Cache) (err : ApiError)
    (h : (fetchSemesterProgramEvents t n tr i y m c).1 = .error err) :
    (fetchSemesterProgramEvents t n tr i y m c).2.1 = c ∨
      (fetchSemesterProgramEvents t n tr i y m c).2.1 =
        (getFromCache t n c (eventsCacheKey i y m)).2 := by
  unfold fetchSemesterProgramEvents at h ⊢
  cases hv : validateSemesterProgramEventsParams i y m with
  | some e => exact Or.inl rfl
  | none =>
      rw [hv] at h
      exact Or.inr (arrayOpCore_error_cache t n tr _ c err h)

theorem fetchSubjects_error_cache (t n : Int) (tr : Transport) (i : Int)
    (c : Cache) (err : ApiError)
    (h : (fetchSemesterProgramSubjects t n tr i c).1 = .error err) :
    (fetchSemesterProgramSubjects t n tr i c).2.1 = c ∨
      (fetchSemesterProgramSubjects t n tr i c).2.1 =
        (getFromCache t n c (subjectsCacheKey i)).2 := by
  unfold fetchSemesterProgramSubjects at h ⊢
  by_cases hcond : i = 0 ∨ i ≤ 0
  · rw [if_pos hcond]
    exact Or.inl rfl
  · rw [if_neg hcond] at h ⊢
    exact Or.inr (arrayOpCore_error_cache t n tr _ c err h)

theorem findGroups_error_cache (t n : Int) (tr : Transport) (ci si pi : Int)
    (c : Cache) (err : ApiError)
    (h : (findGroupsByCourse t n tr ci si pi c).1 = .error err) :
    (findGroupsByCourse t n tr ci si pi c).2.1 = c ∨
      (findGroupsByCourse t n tr ci si pi c).2.1 =
        (getFromCache t n c (groupsCacheKey ci si pi)).2 := by
  unfold findGroupsByCourse at h ⊢
  cases hv : validateGroupsByCourseParams ci si pi with
  | some e => exact Or.inl rfl
  | none =>
      rw [hv] at h
      exact Or.inr (arrayOpCore_error_cache t n tr _ c err h)

theorem findCourses_error_cache (t n : Int) (tr : Transport) (si pi : Int)
    (c : Cache) (err : ApiError)
    (h : (findCoursesByProgram t n tr si pi c).1 = .error err) :
    (findCoursesByProgram t n tr si pi c).2.1 = c ∨
      (findCoursesByProgram t n tr si pi c).2.1 =
        (getFromCache t n c (coursesCacheKey si pi)).2 := by
  unfold findCoursesByProgram at h ⊢
  cases hv : validateCoursesByProgramParams si pi with
  | some e => exact Or.inl rfl
  | none =>
      rw [hv] at h
      exact Or.inr (arrayOpCore_error_cache t n tr _ c err h)

theorem checkPublished_error_cache (t n : Int) (tr : Transport) (i : Int)
    (c : Cache) (err : ApiError)
    (h : (checkSemesterProgramPublished t n tr i c).1 = .error err) :
    (checkSemesterProgramPublished t n tr i c).2.1 = c ∨
      (checkSemesterProgramPublished t n tr i c).2.1 =
        (getFromCache t n c (publishedCacheKey i)).2 := by
  unfold checkSemesterProgramPublished at h ⊢
  by_cases hcond : i = 0 ∨ i ≤ 0
  · rw [if_pos hcond]
    exact Or.inl rfl
  · rw [if_neg hcond] at h ⊢
    cases hm : (getFromCache t n c (publishedCacheKey i)).1 with
    | some d =>
        simp only [hm] at h
        simp at h
    | none =>
        simp only [hm] at h ⊢
        cases tr with
        | error mm => exact Or.inr rfl
        | ok body => simp at h

theorem getCachedPeriods_snd_cases (t n : Int) (st : DiscoveryState) :
    (getCachedPeriods t n st).2.programsCache = st.programsCache ∧
    ((getCachedPeriods t n st).2.periodsCache = st.periodsCache ∨
      ((getCachedPeriods t n st).2.periodsCache = none ∧
        ∃ e, st.periodsCache = some e ∧ t < n - e.timestamp)) := by
  unfold getCachedPeriods
  cases hm : st.periodsCache with
  | none => exact ⟨rfl, Or.inl hm⟩
  | some e =>
      by_cases hs : n - e.timestamp > t
      · simp only [if_pos hs]
        exact ⟨trivial, Or.inr ⟨trivial, e, rfl, by omega⟩⟩
      · simp only [if_neg hs]
        exact ⟨trivial, Or.inl hm⟩

theorem discoverPeriods_error_snd (lp : String → ParsedLabel) (t n : Int)
    (nd : HDate) (f : PeriodsFetch) (st : DiscoveryState) (derr : DiscError)
    (h : (discoverPeriods lp t n nd f st).1 = .error derr) :
    (discoverPeriods lp t n nd f st).2 = (getCachedPeriods t n st).2 := by
  simp only [discoverPeriods] at h ⊢
  cases hm : (getCachedPeriods t n st).1 with
  | some cached =>
      simp only [hm] at h
      simp at h
  | none =>
      simp only [hm] at h ⊢
      cases f with
      | error mm => rfl
      | ok pr =>
          obtain ⟨sems, md⟩ := pr
          simp at h

theorem discoverPrograms_error_snd (ppn : String → String) (t n : Int)
    (pid : Int) (g : Except String (List Faculty)) (st : DiscoveryState)
    (derr : DiscError)
    (h : (discoverPrograms ppn t n pid g st).1 = .error derr) :
    (discoverPrograms ppn t n pid g st).2 = (getCachedPrograms t n st pid).2 := by
  simp only [discoverPrograms] at h ⊢
  cases hm : (getCachedPrograms t n st pid).1 with
  | some cached =>
      simp only [hm] at h
      simp at h
  | none =>
      simp only [hm] at h ⊢
      cases g with
      | error mm => rfl
      | ok faculties => simp at h

/-! ## C6 -/

/-- C6 counterexample: the claim says a failed operation leaves the cache
state exactly as it was. But a call that begins with an expired entry first
evicts it lazily; if the upstream then fails, the final state differs from
the pre-call state (the stale entry is gone): discoverPeriods with TTL 5, an
entry written at time 0, called at time 10 with a failing fetch. -/
theorem C6_failure_untouched_counterexample :
    (discoverPeriods (fun _ => ⟨"", "", ""⟩) 5 10 ⟨2024, 0, 1⟩ (.error "down")
        ⟨some ⟨[], 0⟩, []⟩).1 = .error ⟨"Failed to fetch periods", some "down"⟩ ∧
    (discoverPeriods (fun _ => ⟨"", "", ""⟩) 5 10 ⟨2024, 0, 1⟩ (.error "down")
        ⟨some ⟨[], 0⟩, []⟩).2 ≠ ⟨some ⟨[], 0⟩, []⟩ := by
  constructor
  · rfl
  · decide

/-- C6 (amended): a failed operation never writes a cache entry: every slot
other than the queried key is exactly as before, and the queried slot is
either unchanged or removed, the latter only when it already held an expired
entry (lazy eviction by the initial lookup). This holds for the five client
operations and both discovery operations. -/
theorem C6_failure_no_write (t n : Int) (tr : Transport) (i y m ci si pi : Int)
    (c : Cache) (err : ApiError) (lp : String → ParsedLabel)
    (ppn : String → String) (nd : HDate) (f : PeriodsFetch)
    (g : Except String (List Faculty)) (st : DiscoveryState) (pid : Int)
    (derr : DiscError) :
    ((fetchSemesterProgramEvents t n tr i y m c).1 = .error err →
      (∀ k2, k2 ≠ eventsCacheKey i y m →
        alookup (fetchSemesterProgramEvents t n tr i y m c).2.1 k2 =
          alookup c k2) ∧
      (alookup (fetchSemesterProgramEvents t n tr i y m c).2.1
            (eventsCacheKey i y m) = alookup c (eventsCacheKey i y m) ∨
        (alookup (fetchSemesterProgramEvents t n tr i y m c).2.1
              (eventsCacheKey i y m) = none ∧
          ∃ e, alookup c (eventsCacheKey i y m) = some e ∧
            t ≤ n - e.timestamp))) ∧
    ((fetchSemesterProgramSubjects t n tr i c).1 = .error err →
      (∀ k2, k2 ≠ subjectsCacheKey i →
        alookup (fetchSemesterProgramSubjects t n tr i c).2.1 k2 =
          alookup c k2) ∧
      (alookup (fetchSemesterProgramSubjects t n tr i c).2.1
            (subjectsCacheKey i) = alookup c (subjectsCacheKey i) ∨
        (alookup (fetchSemesterProgramSubjects t n tr i c).2.1
              (subjectsCacheKey i) = none ∧
          ∃ e, alookup c (subjectsCacheKey i) = some e ∧
            t ≤ n - e.timestamp))) ∧
    ((checkSemesterProgramPublished t n tr i c).1 = .error err →
      (∀ k2, k2 ≠ publishedCacheKey i →
        alookup (checkSemesterProgramPublished t n tr i c).2.1 k2 =
          alookup c k2) ∧
      (alookup (checkSemesterProgramPublished t n tr i c).2.1
            (publishedCacheKey i) = alookup c (publishedCacheKey i) ∨
        (alookup (checkSemesterProgramPublished t n tr i c).2.1
              (publishedCacheKey i) = none ∧
          ∃ e, alookup c (publishedCacheKey i) = some e ∧
            t ≤ n - e.timestamp))) ∧
    ((findGroupsByCourse t n tr ci si pi c).1 = .error err →
      (∀ k2, k2 ≠ groupsCacheKey ci si pi →
        alookup (findGroupsByCourse t n tr ci si pi c).2.1 k2 =
          alookup c k2) ∧
      (alookup (findGroupsByCourse t n tr ci si pi c).2.1
            (groupsCacheKey ci si pi) = alookup c (groupsCacheKey ci si pi) ∨
        (alookup (findGroupsByCourse t n tr ci si pi c).2.1
              (groupsCacheKey ci si pi) = none ∧
          ∃ e, alookup c (groupsCacheKey ci si pi) = some e ∧
            t ≤ n - e.timestamp))) ∧
    ((findCoursesByProgram t n tr si pi c).1 = .error err →
      (∀ k2, k2 ≠ coursesCacheKey si pi →
        alookup (findCoursesByProgram t n tr si pi c).2.1 k2 =
          alookup c k2) ∧
      (alookup (findCoursesByProgram t n tr si pi c).2.1
            (coursesCacheKey si pi) = alookup c (coursesCacheKey si pi) ∨
        (alookup (findCoursesByProgram t n tr si pi c).2.1
              (coursesCacheKey si pi) = none ∧
          ∃ e, alookup c (coursesCacheKey si pi) = some e ∧
            t ≤ n - e.timestamp))) ∧
    ((discoverPeriods lp t n nd f st).1 = .error derr →
      (discoverPeriods lp t n nd f st).2.programsCache = st.programsCache ∧
      ((discoverPeriods lp t n nd f st).2.periodsCache = st.periodsCache ∨
        ((discoverPeriods lp t n nd f st).2.periodsCache = none ∧
          ∃ e, st.periodsCache = some e ∧ t < n - e.timestamp))) ∧
    ((discoverPrograms ppn t n pid g st).1 = .error derr →
      (discoverPrograms ppn t n pid g st).2.periodsCache = st.periodsCache ∧
      (∀ q, q ≠ pid →
        alookup (discoverPrograms ppn t n pid g st).2.programsCache q =
          alookup st.programsCache q) ∧
      (alookup (discoverPrograms ppn t n pid g st).2.programsCache pid =
          alookup st.programsCache pid ∨
        (alookup (discoverPrograms ppn t n pid g st).2.programsCache pid =
            none ∧
          ∃ e, alookup st.programsCache pid = some e ∧
            t < n - e.timestamp))) := by
  refine ⟨?_, ?_, ?_, ?_, ?_, ?_, ?_⟩
  · intro h
    exact cache_frame_of_cases t n c _ (eventsCacheKey i y m)
      (fetchEvents_error_cache t n tr i y m c err h)
  · intro h
    exact cache_frame_of_cases t n c _ (subjectsCacheKey i)
      (fetchSubjects_error_cache t n tr i c err h)
  · intro h
    exact cache_frame_of_cases t n c _ (publishedCacheKey i)
      (checkPublished_error_cache t n tr i c err h)
  · intro h
    exact cache_frame_of_cases t n c _ (groupsCacheKey ci si pi)
      (findGroups_error_cache t n tr ci si pi c err h)
  · intro h
    exact cache_frame_of_cases t n c _ (coursesCacheKey si pi)
      (findCourses_error_cache t n tr si pi c err h)
  · intro h
    rw [discoverPeriods_error_snd lp t n nd f st derr h]
    exact getCachedPeriods_snd_cases t n st
  · intro h
    rw [discoverPrograms_error_snd ppn t n pid g st derr h]
    exact ⟨getCachedPrograms_periods t n st pid,
      fun q hq => getCachedPrograms_frame t n st pid q hq,
      getCachedPrograms_slot t n st pid⟩

/-- C6 witness: a failing events call on the empty cache leaves every slot
(here the subjects key of program 1, a key the call does not own) reading as
before. -/
theorem C6_failure_no_write_witness :
    alookup (fetchSemesterProgramEvents 10 20 (.error "down") 1 2024 5
        []).2.1 (subjectsCacheKey 1) = alookup ([] : Cache) (subjectsCacheKey 1) :=
  ((C6_failure_no_write 10 20 (.error "down") 1 2024 5 2 3 4 []
      (.transport ("API request failed: " ++ "down")) (fun _ => ⟨"", "", ""⟩)
      (fun s => s) ⟨2024, 0, 1⟩ (.error "x") (.error "x") ⟨none, []⟩ 1
      ⟨"x", none⟩).1 (by rfl)).1 (subjectsCacheKey 1) (by decide)
